import Mathlib

/-!
Shallow embedding of `src/mbgl/style/conversion/function.cpp` (mapbox-gl-native):
conversion of legacy stop-based style functions into expression trees.

The file embeds the data model (the read-only `Convertible` configuration
value, the target type descriptors, the expression AST) and the converter
functions, following the C++ source line by line.  External collaborators
(the `Convertible` accessor contract, the scalar `Converter<T>`
specializations living outside the provided source, and the opaque
expression-node constructors) are modelled from the spec, and are marked as
such in their doc comments.
-/

namespace FunctionConversion

/-- Configuration value: the external semi-structured read-only input
 (JSON-like), inspected through the accessor contract below. -/
inductive JValue : Type where
  | null : JValue
  | bool (b : Bool) : JValue
  | num (q : Rat) : JValue
  | str (s : String) : JValue
  | arr (xs : List JValue) : JValue
  | obj (fields : List (String × JValue)) : JValue

/-- Modelled from the spec: external accessor `objectMember` of the
 Convertible contract; yields the member when the value is an object
 holding the key. -/
def objectMember : JValue → String → Option JValue
  | JValue.obj fields, key => List.lookup key fields
  | _, _ => none

/-- Modelled from the spec: external accessor `isObject`. -/
def isObject : JValue → Bool
  | JValue.obj _ => true
  | _ => false

/-- Modelled from the spec: external accessor `isArray`. -/
def isArray : JValue → Bool
  | JValue.arr _ => true
  | _ => false

/-- Modelled from the spec: external accessor `arrayLength` (0 when not an array). -/
def arrayLength : JValue → Nat
  | JValue.arr xs => xs.length
  | _ => 0

/-- Modelled from the spec: external accessor `arrayMember` (indexing). -/
def arrayMember : JValue → Nat → JValue
  | JValue.arr xs, i => xs.getD i JValue.null
  | _, _ => JValue.null

/-- Element list of an array value; the loops of the source iterate
 `arrayMember` over indices `0 ..< arrayLength`, which is the same traversal. -/
def elements : JValue → List JValue
  | JValue.arr xs => xs
  | _ => []

/-- Modelled from the spec: external scalar coercion `toBool` (strict: only
 a boolean value yields a boolean). -/
def toBool : JValue → Option Bool
  | JValue.bool b => some b
  | _ => none

/-- Modelled from the spec: external scalar coercion `toNumber`. -/
def toNumber : JValue → Option Rat
  | JValue.num q => some q
  | _ => none

/-- Modelled from the spec: external scalar coercion `toString`. -/
def toString : JValue → Option String
  | JValue.str s => some s
  | _ => none

/-- Target type descriptor (`type::Type`): a closed variant. -/
inductive TypeT : Type where
  | number : TypeT
  | boolean : TypeT
  | string : TypeT
  | color : TypeT
  | array (itemType : TypeT) (N : Option Nat) : TypeT
  | null : TypeT
  | object : TypeT
  | errorT : TypeT
  | valueT : TypeT
  | collator : TypeT

/-- Expression value (`expression::Value`) as stored in literal nodes. -/
inductive Value : Type where
  | b (x : Bool) : Value
  | num (x : Rat) : Value
  | str (x : String) : Value
  | color (x : String) : Value
  | arr (xs : List Value) : Value

/-- Modelled from the spec: the interpolation curve objects (`linear()`,
 `exponential(base)`) are supplied as opaque constructors. -/
inductive Interpolator : Type where
  | linear : Interpolator
  | exponential (base : Rat) : Interpolator

/-- Expression AST node.  The node constructors (`Step`, `Interpolate`,
 `Match`, `Case`, `ArrayAssertion`, literals, the dsl helpers `get`,
 `zoom`, `number`, `string`, `boolean`, `toColor`, `error`) are external
 collaborators; each is modelled as one opaque constructor, per the spec. -/
inductive Expr : Type where
  | lit (v : Value) : Expr
  | get (property : Expr) : Expr
  | zoom : Expr
  | number (e : Expr) : Expr
  | string (e : Expr) : Expr
  | boolean (e : Expr) : Expr
  | toColor (e : Expr) : Expr
  | arrayAssertion (itemType : TypeT) (N : Option Nat) (e : Expr) : Expr
  | step (ty : TypeT) (input : Expr) (stops : List (Rat × Expr)) : Expr
  | interpolate (ty : TypeT) (curve : Interpolator) (input : Expr)
      (stops : List (Rat × Expr)) : Expr
  | matchInt (ty : TypeT) (input : Expr) (branches : List (Int × Expr))
      (fallback : Expr) : Expr
  | matchStr (ty : TypeT) (input : Expr) (branches : List (String × Expr))
      (fallback : Expr) : Expr
  | caseE (ty : TypeT) (branches : List (Expr × Expr)) (fallback : Expr) : Expr
  | error (msg : String) : Expr

/-- Result of a fallible conversion: `ok` mirrors an engaged
 `optional` result, `err` mirrors a disengaged result with the `Error`
 out-parameter set to a message, and `abort` mirrors an `assert(false)`
 precondition violation (which never sets the error sink). -/
inductive CResult (α : Type) : Type where
  | ok (a : α) : CResult α
  | err (msg : String) : CResult α
  | abort : CResult α

def CResult.bind {α β : Type} : CResult α → (α → CResult β) → CResult β
  | CResult.ok a, f => f a
  | CResult.err m, _ => CResult.err m
  | CResult.abort, _ => CResult.abort

instance : Monad CResult where
  pure := CResult.ok
  bind := CResult.bind

/-- Modelled from the spec: external `Converter<float>` — scalar coercion to
 a number, a recoverable error when the value is not numeric. -/
def convertFloat (value : JValue) : CResult Rat :=
  match toNumber value with
  | some n => CResult.ok n
  | none => CResult.err "value must be a number"

/-- Modelled from the spec: external `Converter<bool>`. -/
def convertBool (value : JValue) : CResult Bool :=
  match toBool value with
  | some b => CResult.ok b
  | none => CResult.err "value must be a boolean"

/-- Modelled from the spec: external `Converter<std::string>`. -/
def convertString (value : JValue) : CResult String :=
  match toString value with
  | some s => CResult.ok s
  | none => CResult.err "value must be a string"

/-- Modelled from the spec: external `Converter<Color>` — color coercion is
 an external capability; modelled as accepting any string. -/
def convertColor (value : JValue) : CResult String :=
  match toString value with
  | some s => CResult.ok s
  | none => CResult.err "value must be a string"

/-- Truncation of a rational toward zero, the C++ `float` to `int64_t`
 conversion applied implicitly in `Converter<int64_t>`. -/
def ratTrunc (q : Rat) : Int :=
  Int.tdiv q.num (Int.ofNat q.den)

/-- Ad-hoc `Converter<double>` of the source: goes through `convert<float>`. -/
def convertDouble (value : JValue) : CResult Rat :=
  match convertFloat value with
  | CResult.ok converted => CResult.ok converted
  | CResult.err m => CResult.err m
  | CResult.abort => CResult.abort

/-- Ad-hoc `Converter<int64_t>` of the source: goes through `convert<float>`
 and narrows to an integer. -/
def convertInt64 (value : JValue) : CResult Int :=
  match convertFloat value with
  | CResult.ok converted => CResult.ok (ratTrunc converted)
  | CResult.err m => CResult.err m
  | CResult.abort => CResult.abort

/-- Function shape classifier result (`FunctionType`). -/
inductive FunctionType : Type where
  | interval : FunctionType
  | exponential : FunctionType
  | categorical : FunctionType
  | identity : FunctionType
  | invalid : FunctionType
deriving DecidableEq

/-- Whether a target type supports numeric interpolation: Number, Color, or
 an Array of Numbers with a fixed length (`interpolatable`). -/
def interpolatable : TypeT → Bool
  | TypeT.number => true
  | TypeT.color => true
  | TypeT.array TypeT.number (some _) => true
  | _ => false

/-- The type classifier (`functionType`): reads the optional "type" member
 and decides the function shape. -/
def functionType (ty : TypeT) (value : JValue) : FunctionType :=
  match objectMember value "type" with
  | none => if interpolatable ty then FunctionType.exponential else FunctionType.interval
  | some typeValue =>
    match toString typeValue with
    | none => FunctionType.invalid
    | some s =>
      if s = "interval" then FunctionType.interval
      else if s = "exponential" ∧ interpolatable ty then FunctionType.exponential
      else if s = "categorical" then FunctionType.categorical
      else if s = "identity" then FunctionType.identity
      else FunctionType.invalid

/-- Element loop of the Number-array branch of `convertLiteral`: coerce every
 element to a number, failing the whole array on the first bad element. -/
def arrayNumberItems : List JValue → CResult (List Value)
  | [] => CResult.ok []
  | x :: rest =>
    match toNumber x with
    | none => CResult.err "value must be an array of numbers"
    | some n =>
      match arrayNumberItems rest with
      | CResult.ok vs => CResult.ok (Value.num n :: vs)
      | CResult.err m => CResult.err m
      | CResult.abort => CResult.abort

/-- Element loop of the String-array branch of `convertLiteral`. -/
def arrayStringItems : List JValue → CResult (List Value)
  | [] => CResult.ok []
  | x :: rest =>
    match toString x with
    | none => CResult.err "value must be an array of strings"
    | some s =>
      match arrayStringItems rest with
      | CResult.ok vs => CResult.ok (Value.str s :: vs)
      | CResult.err m => CResult.err m
      | CResult.abort => CResult.abort

/-- Item-type dispatch of the Array branch of `convertLiteral`; an item type
 other than Number or String is asserted unreachable in the source. -/
def convertArrayItems : TypeT → List JValue → CResult Expr
  | TypeT.number, xs =>
    match arrayNumberItems xs with
    | CResult.ok vs => CResult.ok (Expr.lit (Value.arr vs))
    | CResult.err m => CResult.err m
    | CResult.abort => CResult.abort
  | TypeT.string, xs =>
    match arrayStringItems xs with
    | CResult.ok vs => CResult.ok (Expr.lit (Value.arr vs))
    | CResult.err m => CResult.err m
    | CResult.abort => CResult.abort
  | _, _ => CResult.abort

/-- The literal converter (`convertLiteral`): type-directed parser turning a
 raw value into a typed literal expression; target types never requested by
 calling code are asserted unreachable. -/
def convertLiteral : TypeT → JValue → CResult Expr
  | TypeT.number, value =>
    match convertFloat value with
    | CResult.ok result => CResult.ok (Expr.lit (Value.num result))
    | CResult.err m => CResult.err m
    | CResult.abort => CResult.abort
  | TypeT.boolean, value =>
    match convertBool value with
    | CResult.ok result => CResult.ok (Expr.lit (Value.b result))
    | CResult.err m => CResult.err m
    | CResult.abort => CResult.abort
  | TypeT.string, value =>
    match convertString value with
    | CResult.ok result => CResult.ok (Expr.lit (Value.str result))
    | CResult.err m => CResult.err m
    | CResult.abort => CResult.abort
  | TypeT.color, value =>
    match convertColor value with
    | CResult.ok result => CResult.ok (Expr.lit (Value.color result))
    | CResult.err m => CResult.err m
    | CResult.abort => CResult.abort
  | TypeT.array itemType N, value =>
    if ¬ isArray value then CResult.err "value must be an array"
    else
      match N with
      | some n =>
        if arrayLength value ≠ n then
          CResult.err ("value must be an array of length " ++ Nat.repr n)
        else convertArrayItems itemType (elements value)
      | none => convertArrayItems itemType (elements value)
  | TypeT.null, _ => CResult.abort
  | TypeT.object, _ => CResult.abort
  | TypeT.errorT, _ => CResult.abort
  | TypeT.valueT, _ => CResult.abort
  | TypeT.collator, _ => CResult.abort

/-- Strict-order comparison used for `std::map<double, ...>` keys. -/
def ratLt (a b : Rat) : Bool := Rat.blt a b

/-- Strict-order comparison used for `std::map<int64_t, ...>` keys. -/
def intLt (a b : Int) : Bool := decide (a < b)

/-- Strict-order comparison used for `std::map<bool, ...>` keys
 (false before true). -/
def boolLt (a b : Bool) : Bool := !a && b

/-- Lexicographic comparison on character lists. -/
def charListLt : List Char → List Char → Bool
  | [], [] => false
  | [], _ :: _ => true
  | _ :: _, [] => false
  | a :: as, b :: bs =>
    if a.val.toNat < b.val.toNat then true
    else if b.val.toNat < a.val.toNat then false
    else charListLt as bs

/-- Modelled from the spec: `std::map<std::string, ...>` orders keys by
 `std::string::operator<`, lexicographic over the character sequence. -/
def strLt (a b : String) : Bool := charListLt a.toList b.toList

/-- Ordered-map insertion mirroring `std::map::emplace` on a sorted
 association list: inserts at the ordered position, and when an equivalent
 key is already present keeps the existing entry (first-wins, the later
 duplicate is silently discarded). -/
def emplace {κ α : Type} (lt : κ → κ → Bool) (k : κ) (v : α) :
    List (κ × α) → List (κ × α)
  | [] => [(k, v)]
  | (k₁, v₁) :: rest =>
    if lt k k₁ then (k, v) :: (k₁, v₁) :: rest
    else if lt k₁ k then (k₁, v₁) :: emplace lt k v rest
    else (k₁, v₁) :: rest

/-- Per-stop loop of `convertStops`: each stop must be a 2-element array; the
 key goes through `convert<float>`, the output through the literal
 converter; the pair is inserted with `emplace`. -/
def convertStopsLoop (ty : TypeT) : List JValue → List (Rat × Expr) →
    CResult (List (Rat × Expr))
  | [], stops => CResult.ok stops
  | stopValue :: rest, stops =>
    if ¬ isArray stopValue then CResult.err "function stop must be an array"
    else if arrayLength stopValue ≠ 2 then
      CResult.err "function stop must have two elements"
    else
      match convertFloat (arrayMember stopValue 0) with
      | CResult.err m => CResult.err m
      | CResult.abort => CResult.abort
      | CResult.ok t =>
        match convertLiteral ty (arrayMember stopValue 1) with
        | CResult.err m => CResult.err m
        | CResult.abort => CResult.abort
        | CResult.ok e => convertStopsLoop ty rest (emplace ratLt t e stops)

/-- The double-keyed stop collection parser (`convertStops`). -/
def convertStops (ty : TypeT) (value : JValue) : CResult (List (Rat × Expr)) :=
  match objectMember value "stops" with
  | none => CResult.err "function value must specify stops"
  | some stopsValue =>
    if ¬ isArray stopsValue then CResult.err "function stops must be an array"
    else if arrayLength stopsValue = 0 then
      CResult.err "function must have at least one stop"
    else convertStopsLoop ty (elements stopsValue) []

/-- Per-stop loop of the generic `convertBranches<T>`, parameterized by the
 key order and the key converter `convert<T>` of the instantiating type. -/
def convertBranchesLoop {κ : Type} (lt : κ → κ → Bool)
    (convKey : JValue → CResult κ) (ty : TypeT) : List JValue →
    List (κ × Expr) → CResult (List (κ × Expr))
  | [], stops => CResult.ok stops
  | stopValue :: rest, stops =>
    if ¬ isArray stopValue then CResult.err "function stop must be an array"
    else if arrayLength stopValue ≠ 2 then
      CResult.err "function stop must have two elements"
    else
      match convKey (arrayMember stopValue 0) with
      | CResult.err m => CResult.err m
      | CResult.abort => CResult.abort
      | CResult.ok t =>
        match convertLiteral ty (arrayMember stopValue 1) with
        | CResult.err m => CResult.err m
        | CResult.abort => CResult.abort
        | CResult.ok e => convertBranchesLoop lt convKey ty rest (emplace lt t e stops)

/-- The generic key-typed stop collection parser (`convertBranches<T>`,
 instantiated at bool, int64, and string by the categorical paths). -/
def convertBranches {κ : Type} (lt : κ → κ → Bool)
    (convKey : JValue → CResult κ) (ty : TypeT) (value : JValue) :
    CResult (List (κ × Expr)) :=
  match objectMember value "stops" with
  | none => CResult.err "function value must specify stops"
  | some stopsValue =>
    if ¬ isArray stopsValue then CResult.err "function stops must be an array"
    else if arrayLength stopsValue = 0 then
      CResult.err "function must have at least one stop"
    else convertBranchesLoop lt convKey ty (elements stopsValue) []

/-- The base parameter parser (`convertBase`): optional "base" member,
 defaulting to 1.0. -/
def convertBase (value : JValue) : CResult Rat :=
  match objectMember value "base" with
  | none => CResult.ok 1
  | some baseValue =>
    match toNumber baseValue with
    | none => CResult.err "function base must be a number"
    | some base => CResult.ok base

/-- The `step` helper: wraps stops in a step expression node. -/
def step (ty : TypeT) (input : Expr) (stops : List (Rat × Expr)) : Expr :=
  Expr.step ty input stops

/-- Modelled from the spec: `createInterpolate` is an opaque external
 expression-node constructor; the callers in this source only reach it with
 an interpolatable target type, so its internal failure path is asserted
 unreachable by the `interpolate` helper. -/
def interpolate (ty : TypeT) (curve : Interpolator) (input : Expr)
    (stops : List (Rat × Expr)) : Expr :=
  Expr.interpolate ty curve input stops

/-- The generic `categorical<T>` builder at `T = int64_t`: a match
 expression on the property read, with an explicit fallback. -/
def categoricalInt (ty : TypeT) (property : String)
    (branches : List (Int × Expr)) : Expr :=
  Expr.matchInt ty (Expr.get (Expr.lit (Value.str property))) branches
    (Expr.error "replaced with default")

/-- The generic `categorical<T>` builder at `T = std::string`. -/
def categoricalStr (ty : TypeT) (property : String)
    (branches : List (String × Expr)) : Expr :=
  Expr.matchStr ty (Expr.get (Expr.lit (Value.str property))) branches
    (Expr.error "replaced with default")

/-- The `categorical<bool>` specialization: a binary case expression whose
 single branch tests the property read; a missing true or false entry is
 replaced by an explicit default expression. -/
def categoricalBool (ty : TypeT) (property : String)
    (branches : List (Bool × Expr)) : Expr :=
  Expr.caseE ty
    [(Expr.get (Expr.lit (Value.str property)),
      match List.lookup true branches with
      | none => Expr.error "replaced with default"
      | some trueCase => trueCase)]
    (match List.lookup false branches with
     | none => Expr.error "replaced with default"
     | some falseCase => falseCase)

/-- `convertIntervalFunction`: stop parsing plus a step wrap. -/
def convertIntervalFunction (ty : TypeT) (value : JValue) (input : Expr) :
    CResult Expr :=
  match convertStops ty value with
  | CResult.err m => CResult.err m
  | CResult.abort => CResult.abort
  | CResult.ok stops => CResult.ok (step ty input stops)

/-- `convertExponentialFunction`: stop parsing, base parsing, and an
 exponential-interpolation wrap. -/
def convertExponentialFunction (ty : TypeT) (value : JValue) (input : Expr) :
    CResult Expr :=
  match convertStops ty value with
  | CResult.err m => CResult.err m
  | CResult.abort => CResult.abort
  | CResult.ok stops =>
    match convertBase value with
    | CResult.err m => CResult.err m
    | CResult.abort => CResult.abort
    | CResult.ok base =>
      CResult.ok (interpolate ty (Interpolator.exponential base) input stops)

/-- The categorical function converter (`convertCategoricalFunction`):
 validates the stops shape, infers the key domain from the first stop key
 by trying boolean, then numeric, then string coercion, then builds the
 match/case expression over the full branch map. -/
def convertCategoricalFunction (ty : TypeT) (value : JValue)
    (property : String) : CResult Expr :=
  match objectMember value "stops" with
  | none => CResult.err "function value must specify stops"
  | some stopsValue =>
    if ¬ isArray stopsValue then CResult.err "function stops must be an array"
    else if arrayLength stopsValue = 0 then
      CResult.err "function must have at least one stop"
    else
      if ¬ isArray (arrayMember stopsValue 0) then
        CResult.err "function stop must be an array"
      else if arrayLength (arrayMember stopsValue 0) ≠ 2 then
        CResult.err "function stop must have two elements"
      else
        if (toBool (arrayMember (arrayMember stopsValue 0) 0)).isSome then
          match convertBranches boolLt convertBool ty value with
          | CResult.err m => CResult.err m
          | CResult.abort => CResult.abort
          | CResult.ok branches => CResult.ok (categoricalBool ty property branches)
        else if (toNumber (arrayMember (arrayMember stopsValue 0) 0)).isSome then
          match convertBranches intLt convertInt64 ty value with
          | CResult.err m => CResult.err m
          | CResult.abort => CResult.abort
          | CResult.ok branches => CResult.ok (categoricalInt ty property branches)
        else if (toString (arrayMember (arrayMember stopsValue 0) 0)).isSome then
          match convertBranches strLt convertString ty value with
          | CResult.err m => CResult.err m
          | CResult.abort => CResult.abort
          | CResult.ok branches => CResult.ok (categoricalStr ty property branches)
        else CResult.err "stop domain value must be a number, string, or boolean"

/-- The camera function converter (`convertCameraFunctionToExpression`):
 zoom-driven interval or exponential functions only. -/
def convertCameraFunctionToExpression (ty : TypeT) (value : JValue) :
    CResult Expr :=
  if ¬ isObject value then CResult.err "function must be an object"
  else
    match functionType ty value with
    | FunctionType.interval => convertIntervalFunction ty value Expr.zoom
    | FunctionType.exponential => convertExponentialFunction ty value Expr.zoom
    | _ => CResult.err "unsupported function type"

/-- Identity branch of the source function converter: a typed property read
 per the target descriptor; target types never produced by the schema are
 asserted unreachable. -/
def identityExpression (ty : TypeT) (property : String) : CResult Expr :=
  match ty with
  | TypeT.string => CResult.ok (Expr.string (Expr.get (Expr.lit (Value.str property))))
  | TypeT.number => CResult.ok (Expr.number (Expr.get (Expr.lit (Value.str property))))
  | TypeT.boolean => CResult.ok (Expr.boolean (Expr.get (Expr.lit (Value.str property))))
  | TypeT.color => CResult.ok (Expr.toColor (Expr.get (Expr.lit (Value.str property))))
  | TypeT.array itemType N =>
    CResult.ok (Expr.arrayAssertion itemType N (Expr.get (Expr.lit (Value.str property))))
  | _ => CResult.abort

/-- The source function converter (`convertSourceFunctionToExpression`):
 property-driven interval, exponential, categorical, or identity functions. -/
def convertSourceFunctionToExpression (ty : TypeT) (value : JValue) :
    CResult Expr :=
  if ¬ isObject value then CResult.err "function must be an object"
  else
    match objectMember value "property" with
    | none => CResult.err "function must specify property"
    | some propertyValue =>
      match toString propertyValue with
      | none => CResult.err "function property must be a string"
      | some property =>
        match functionType ty value with
        | FunctionType.interval =>
          convertIntervalFunction ty value
            (Expr.number (Expr.get (Expr.lit (Value.str property))))
        | FunctionType.exponential =>
          convertExponentialFunction ty value
            (Expr.number (Expr.get (Expr.lit (Value.str property))))
        | FunctionType.categorical => convertCategoricalFunction ty value property
        | FunctionType.identity => identityExpression ty property
        | FunctionType.invalid => CResult.err "unsupported function type"

/-- Insertion into the two-level composite map, mirroring
 `map[z].emplace(d, r)`: `operator[]` creates an empty per-zoom bucket at
 the ordered position when absent, then `emplace` inserts first-wins into
 that bucket. -/
def outerEmplace {κ : Type} (lt : κ → κ → Bool) (z : Rat) (d : κ) (r : Expr) :
    List (Rat × List (κ × Expr)) → List (Rat × List (κ × Expr))
  | [] => [(z, emplace lt d r [])]
  | (z₁, bucket) :: rest =>
    if ratLt z z₁ then (z, emplace lt d r []) :: (z₁, bucket) :: rest
    else if ratLt z₁ z then (z₁, bucket) :: outerEmplace lt z d r rest
    else (z₁, emplace lt d r bucket) :: rest

/-- Per-stop loop of `composite<T>`: each stop input is an object with
 "zoom" and "value" members; zoom goes through `convert<float>`, the inner
 key through `convert<T>`, the output through the literal converter; the
 triple is grouped into the per-zoom bucket map. -/
def compositeLoop {κ : Type} (lt : κ → κ → Bool)
    (convKey : JValue → CResult κ) (ty : TypeT) : List JValue →
    List (Rat × List (κ × Expr)) → CResult (List (Rat × List (κ × Expr)))
  | [], map => CResult.ok map
  | stopValue :: rest, map =>
    if ¬ isArray stopValue then CResult.err "function stop must be an array"
    else if arrayLength stopValue ≠ 2 then
      CResult.err "function stop must have two elements"
    else
      if ¬ isObject (arrayMember stopValue 0) then
        CResult.err "stop input must be an object"
      else
        match objectMember (arrayMember stopValue 0) "zoom" with
        | none => CResult.err "stop input must specify zoom"
        | some zoomValue =>
          match objectMember (arrayMember stopValue 0) "value" with
          | none => CResult.err "stop input must specify value"
          | some sourceValue =>
            match convertFloat zoomValue with
            | CResult.err m => CResult.err m
            | CResult.abort => CResult.abort
            | CResult.ok z =>
              match convKey sourceValue with
              | CResult.err m => CResult.err m
              | CResult.abort => CResult.abort
              | CResult.ok d =>
                match convertLiteral ty (arrayMember stopValue 1) with
                | CResult.err m => CResult.err m
                | CResult.abort => CResult.abort
                | CResult.ok r =>
                  compositeLoop lt convKey ty rest (outerEmplace lt z d r map)

/-- Assembly loop of `composite<T>`: for each zoom bucket, in ascending
 order, emplace the inner expression built by the selected inner builder
 into the outer stop map keyed by zoom. -/
def outerStops {κ : Type} (ty : TypeT) (base : Rat) (property : String)
    (makeInnerExpression : TypeT → Rat → String → List (κ × Expr) → Expr) :
    List (Rat × List (κ × Expr)) → List (Rat × Expr) → List (Rat × Expr)
  | [], stops => stops
  | (z, bucket) :: rest, stops =>
    outerStops ty base property makeInnerExpression rest
      (emplace ratLt z (makeInnerExpression ty base property bucket) stops)

/-- The generic composite converter (`composite<T>`): parses "property" and
 "base", groups every (zoom, innerKey, literal) triple into per-zoom
 buckets, builds one inner expression per bucket with the selected builder,
 and wraps the outer zoom-keyed stop map in a linear zoom interpolation
 when the target type is interpolatable, in a zoom step otherwise.  The
 presence and array shape of "stops" were checked by the caller and are
 asserted. -/
def composite {κ : Type} (lt : κ → κ → Bool) (convKey : JValue → CResult κ)
    (ty : TypeT) (value : JValue)
    (makeInnerExpression : TypeT → Rat → String → List (κ × Expr) → Expr) :
    CResult Expr :=
  match objectMember value "property" with
  | none => CResult.err "function must specify property"
  | some propertyValue =>
    match convertBase value with
    | CResult.err m => CResult.err m
    | CResult.abort => CResult.abort
    | CResult.ok base =>
      match toString propertyValue with
      | none => CResult.err "function property must be a string"
      | some propertyString =>
        match objectMember value "stops" with
        | none => CResult.abort
        | some stopsValue =>
          if ¬ isArray stopsValue then CResult.abort
          else
            match compositeLoop lt convKey ty (elements stopsValue) [] with
            | CResult.err m => CResult.err m
            | CResult.abort => CResult.abort
            | CResult.ok map =>
              if interpolatable ty then
                CResult.ok (interpolate ty Interpolator.linear Expr.zoom
                  (outerStops ty base propertyString makeInnerExpression map []))
              else
                CResult.ok (step ty Expr.zoom
                  (outerStops ty base propertyString makeInnerExpression map []))

/-- The composite function converter entry point
 (`convertCompositeFunctionToExpression`): validates the stops shape,
 infers the inner key domain from the "value" member of the first stop
 (boolean, then numeric, then string), classifies the function shape, and
 dispatches to `composite<T>` with the matching inner builder. -/
def convertCompositeFunctionToExpression (ty : TypeT) (value : JValue) :
    CResult Expr :=
  if ¬ isObject value then CResult.err "function must be an object"
  else
    match objectMember value "stops" with
    | none => CResult.err "function value must specify stops"
    | some stopsValue =>
      if ¬ isArray stopsValue then CResult.err "function stops must be an array"
      else if arrayLength stopsValue = 0 then
        CResult.err "function must have at least one stop"
      else
        if ¬ isArray (arrayMember stopsValue 0) then
          CResult.err "function stop must be an array"
        else if arrayLength (arrayMember stopsValue 0) ≠ 2 then
          CResult.err "function stop must have two elements"
        else
          if ¬ isObject (arrayMember (arrayMember stopsValue 0) 0) then
            CResult.err "stop must be an object"
          else
            match objectMember (arrayMember (arrayMember stopsValue 0) 0) "value" with
            | none => CResult.err "stop must specify value"
            | some sourceValue =>
              if (toBool sourceValue).isSome then
                match functionType ty value with
                | FunctionType.categorical =>
                  composite boolLt convertBool ty value
                    (fun ty₁ _ property stops => categoricalBool ty₁ property stops)
                | _ => CResult.err "unsupported function type"
              else if (toNumber sourceValue).isSome then
                match functionType ty value with
                | FunctionType.interval =>
                  composite ratLt convertDouble ty value
                    (fun ty₁ _ property stops =>
                      step ty₁ (Expr.number (Expr.get (Expr.lit (Value.str property)))) stops)
                | FunctionType.exponential =>
                  composite ratLt convertDouble ty value
                    (fun ty₁ base property stops =>
                      interpolate ty₁ (Interpolator.exponential base)
                        (Expr.number (Expr.get (Expr.lit (Value.str property)))) stops)
                | FunctionType.categorical =>
                  composite intLt convertInt64 ty value
                    (fun ty₁ _ property stops => categoricalInt ty₁ property stops)
                | _ => CResult.err "unsupported function type"
              else if (toString sourceValue).isSome then
                match functionType ty value with
                | FunctionType.categorical =>
                  composite strLt convertString ty value
                    (fun ty₁ _ property stops => categoricalStr ty₁ property stops)
                | _ => CResult.err "unsupported function type"
              else CResult.err "stop domain value must be a number, string, or boolean"

/-- Composite example configuration of the spec: three stops, two distinct
 zoom levels. -/
def cfgC1 : JValue := JValue.obj [("property", JValue.str "p"),
  ("stops", JValue.arr [
    JValue.arr [JValue.obj [("zoom", JValue.num 0), ("value", JValue.num 0)], JValue.num 1],
    JValue.arr [JValue.obj [("zoom", JValue.num 0), ("value", JValue.num 10)], JValue.num 2],
    JValue.arr [JValue.obj [("zoom", JValue.num 5), ("value", JValue.num 0)], JValue.num 3]])]

/-- Categorical configuration whose first stop key is the boolean true. -/
def cfgCatTrue : JValue :=
  JValue.obj [("stops", JValue.arr [JValue.arr [JValue.bool true, JValue.str "A"]])]

/-- Categorical configuration whose first stop key is the boolean false:
 the coercion to boolean is engaged, so it also picks the boolean domain. -/
def cfgCatFalse : JValue :=
  JValue.obj [("stops", JValue.arr [JValue.arr [JValue.bool false, JValue.str "A"]])]

/-- Categorical configuration whose first stop key is the number 5. -/
def cfgCatFive : JValue :=
  JValue.obj [("stops", JValue.arr [JValue.arr [JValue.num 5, JValue.str "A"]])]

/-- Categorical configuration whose first stop key is the string x. -/
def cfgCatX : JValue :=
  JValue.obj [("stops", JValue.arr [JValue.arr [JValue.str "x", JValue.str "A"]])]

/-- Categorical configuration whose first stop key is null, coercible to
 none of boolean, number, string. -/
def cfgCatNull : JValue :=
  JValue.obj [("stops", JValue.arr [JValue.arr [JValue.null, JValue.str "A"]])]

/-- Configuration with two stops sharing the key 1. -/
def cfgDupStops : JValue :=
  JValue.obj [("stops", JValue.arr [JValue.arr [JValue.num 1, JValue.str "a"],
    JValue.arr [JValue.num 1, JValue.str "b"]])]

/-- Composite categorical configuration whose two stops share zoom 0 and the
 inner key 1. -/
def cfgDupComposite : JValue := JValue.obj [("property", JValue.str "p"),
  ("type", JValue.str "categorical"),
  ("stops", JValue.arr [
    JValue.arr [JValue.obj [("zoom", JValue.num 0), ("value", JValue.num 1)], JValue.str "a"],
    JValue.arr [JValue.obj [("zoom", JValue.num 0), ("value", JValue.num 1)], JValue.str "b"]])]

/-- Exponential camera configuration with an explicit base of 2. -/
def cfgBase2 : JValue := JValue.obj [("type", JValue.str "exponential"),
  ("base", JValue.num 2),
  ("stops", JValue.arr [JValue.arr [JValue.num 0, JValue.num 10]])]

/-- Exponential camera configuration without a "base" member. -/
def cfgNoBase : JValue := JValue.obj [("type", JValue.str "exponential"),
  ("stops", JValue.arr [JValue.arr [JValue.num 0, JValue.num 10]])]

/-- Stops whose first element is well-formed and whose second element is
 not an array: the parse passes the first stop and fails at the second. -/
def cfgStopNotArray : JValue :=
  JValue.obj [("stops", JValue.arr [JValue.arr [JValue.num 1, JValue.num 2],
    JValue.str "x"])]

/-- Stops whose first element is well-formed and whose second element has
 one element: the parse passes the first stop and fails at the second. -/
def cfgStopArity : JValue :=
  JValue.obj [("stops", JValue.arr [JValue.arr [JValue.num 1, JValue.num 2],
    JValue.arr [JValue.num 3]])]

/-- Interval composite configuration with a non-numeric "base" member. -/
def cfgBadBaseInterval : JValue := JValue.obj [("property", JValue.str "p"),
  ("type", JValue.str "interval"), ("base", JValue.str "x"),
  ("stops", JValue.arr [
    JValue.arr [JValue.obj [("zoom", JValue.num 0), ("value", JValue.num 0)], JValue.num 1]])]

/-- Categorical composite configuration with a non-numeric "base" member. -/
def cfgBadBaseCategorical : JValue := JValue.obj [("property", JValue.str "p"),
  ("type", JValue.str "categorical"), ("base", JValue.str "x"),
  ("stops", JValue.arr [
    JValue.arr [JValue.obj [("zoom", JValue.num 0), ("value", JValue.num 0)], JValue.str "a"]])]

/-- Claim C1: the composite converter groups every (zoom, innerKey, literal)
 triple into per-zoom buckets, builds one inner expression per bucket via
 the selected inner builder, collects those into an outer stop map keyed by
 zoom, and wraps the result in a zoom interpolation when the target type is
 interpolatable and in a zoom step otherwise; the spec example with three
 stops yields exactly the two zoom buckets 0 and 5, bucket 0 holding two
 property stops. -/
theorem composite_groups_by_zoom_and_wraps :
    (∀ (κ : Type) (lt : κ → κ → Bool) (convKey : JValue → CResult κ) (ty : TypeT)
       (value : JValue) (mk : TypeT → Rat → String → List (κ × Expr) → Expr)
       (propertyValue : JValue) (base : Rat) (propertyString : String)
       (stopsValue : JValue) (map : List (Rat × List (κ × Expr))),
       objectMember value "property" = some propertyValue →
       convertBase value = CResult.ok base →
       toString propertyValue = some propertyString →
       objectMember value "stops" = some stopsValue →
       isArray stopsValue = true →
       compositeLoop lt convKey ty (elements stopsValue) [] = CResult.ok map →
       composite lt convKey ty value mk =
         CResult.ok (if interpolatable ty then
             interpolate ty Interpolator.linear Expr.zoom
               (outerStops ty base propertyString mk map [])
           else step ty Expr.zoom (outerStops ty base propertyString mk map []))) ∧
    convertCompositeFunctionToExpression TypeT.number cfgC1 =
      CResult.ok (Expr.interpolate TypeT.number Interpolator.linear Expr.zoom
        [(0, Expr.interpolate TypeT.number (Interpolator.exponential 1)
            (Expr.number (Expr.get (Expr.lit (Value.str "p"))))
            [(0, Expr.lit (Value.num 1)), (10, Expr.lit (Value.num 2))]),
         (5, Expr.interpolate TypeT.number (Interpolator.exponential 1)
            (Expr.number (Expr.get (Expr.lit (Value.str "p"))))
            [(0, Expr.lit (Value.num 3))])]) := by
  constructor
  · intro κ lt convKey ty value mk propertyValue base propertyString stopsValue map
        h₁ h₂ h₃ h₄ h₅ h₆
    by_cases hi : interpolatable ty <;>
      simp [composite, h₁, h₂, h₃, h₄, h₅, h₆, hi]
  · rfl

/-- Witness for claim C1 at the composite example configuration. -/
theorem composite_groups_by_zoom_and_wraps_witness :
    composite ratLt convertDouble TypeT.number cfgC1
      (fun ty₁ base property stops =>
        interpolate ty₁ (Interpolator.exponential base)
          (Expr.number (Expr.get (Expr.lit (Value.str property)))) stops) =
      CResult.ok (if interpolatable TypeT.number then
          interpolate TypeT.number Interpolator.linear Expr.zoom
            (outerStops TypeT.number 1 "p"
              (fun ty₁ base property stops =>
                interpolate ty₁ (Interpolator.exponential base)
                  (Expr.number (Expr.get (Expr.lit (Value.str property)))) stops)
              [(0, [(0, Expr.lit (Value.num 1)), (10, Expr.lit (Value.num 2))]),
               (5, [(0, Expr.lit (Value.num 3))])] [])
        else step TypeT.number Expr.zoom
          (outerStops TypeT.number 1 "p"
            (fun ty₁ base property stops =>
              interpolate ty₁ (Interpolator.exponential base)
                (Expr.number (Expr.get (Expr.lit (Value.str property)))) stops)
            [(0, [(0, Expr.lit (Value.num 1)), (10, Expr.lit (Value.num 2))]),
             (5, [(0, Expr.lit (Value.num 3))])] [])) :=
  composite_groups_by_zoom_and_wraps.1 Rat ratLt convertDouble TypeT.number cfgC1
    (fun ty₁ base property stops =>
      interpolate ty₁ (Interpolator.exponential base)
        (Expr.number (Expr.get (Expr.lit (Value.str property)))) stops)
    (JValue.str "p") 1 "p"
    (JValue.arr [
      JValue.arr [JValue.obj [("zoom", JValue.num 0), ("value", JValue.num 0)], JValue.num 1],
      JValue.arr [JValue.obj [("zoom", JValue.num 0), ("value", JValue.num 10)], JValue.num 2],
      JValue.arr [JValue.obj [("zoom", JValue.num 5), ("value", JValue.num 0)], JValue.num 3]])
    [(0, [(0, Expr.lit (Value.num 1)), (10, Expr.lit (Value.num 2))]),
     (5, [(0, Expr.lit (Value.num 3))])]
    rfl rfl rfl rfl rfl rfl

/-- Claim C2: for every categorical configuration with a well-formed
 non-empty stops array whose first stop is a 2-element array, the domain is
 inferred from the first stop key by trying boolean, then numeric, then
 string coercion in that fixed order; the first coercion yielding an
 engaged result selects the branch parser and builder (so any engaged
 boolean, a first key of false included, picks the boolean domain), and
 when all three coercions fail, conversion fails with the domain error
 message. -/
theorem categorical_domain_inference (ty : TypeT) (value : JValue)
    (property : String) (stopsValue : JValue)
    (h₁ : objectMember value "stops" = some stopsValue)
    (h₂ : isArray stopsValue = true)
    (h₃ : arrayLength stopsValue ≠ 0)
    (h₄ : isArray (arrayMember stopsValue 0) = true)
    (h₅ : arrayLength (arrayMember stopsValue 0) = 2) :
    (∀ b, toBool (arrayMember (arrayMember stopsValue 0) 0) = some b →
       convertCategoricalFunction ty value property =
         (match convertBranches boolLt convertBool ty value with
          | CResult.err m => CResult.err m
          | CResult.abort => CResult.abort
          | CResult.ok branches => CResult.ok (categoricalBool ty property branches))) ∧
    (∀ q, toBool (arrayMember (arrayMember stopsValue 0) 0) = none →
       toNumber (arrayMember (arrayMember stopsValue 0) 0) = some q →
       convertCategoricalFunction ty value property =
         (match convertBranches intLt convertInt64 ty value with
          | CResult.err m => CResult.err m
          | CResult.abort => CResult.abort
          | CResult.ok branches => CResult.ok (categoricalInt ty property branches))) ∧
    (∀ s, toBool (arrayMember (arrayMember stopsValue 0) 0) = none →
       toNumber (arrayMember (arrayMember stopsValue 0) 0) = none →
       toString (arrayMember (arrayMember stopsValue 0) 0) = some s →
       convertCategoricalFunction ty value property =
         (match convertBranches strLt convertString ty value with
          | CResult.err m => CResult.err m
          | CResult.abort => CResult.abort
          | CResult.ok branches => CResult.ok (categoricalStr ty property branches))) ∧
    (toBool (arrayMember (arrayMember stopsValue 0) 0) = none →
       toNumber (arrayMember (arrayMember stopsValue 0) 0) = none →
       toString (arrayMember (arrayMember stopsValue 0) 0) = none →
       convertCategoricalFunction ty value property =
         CResult.err "stop domain value must be a number, string, or boolean") := by
  refine ⟨?_, ?_, ?_, ?_⟩
  · intro b hb
    simp [convertCategoricalFunction, h₁, h₂, h₃, h₄, h₅, hb]
  · intro q hb hn
    simp [convertCategoricalFunction, h₁, h₂, h₃, h₄, h₅, hb, hn]
  · intro s hb hn hs
    simp [convertCategoricalFunction, h₁, h₂, h₃, h₄, h₅, hb, hn, hs]
  · intro hb hn hs
    simp [convertCategoricalFunction, h₁, h₂, h₃, h₄, h₅, hb, hn, hs]

/-- Witness for claim C2 at the four claim examples plus a first key of
 false: true and false both pick the boolean domain (the case expression),
 5 the integer match, x the string match, and null the domain error. -/
theorem categorical_domain_inference_witness :
    convertCategoricalFunction TypeT.string cfgCatTrue "p" =
      CResult.ok (Expr.caseE TypeT.string
        [(Expr.get (Expr.lit (Value.str "p")), Expr.lit (Value.str "A"))]
        (Expr.error "replaced with default")) ∧
    convertCategoricalFunction TypeT.string cfgCatFalse "p" =
      CResult.ok (Expr.caseE TypeT.string
        [(Expr.get (Expr.lit (Value.str "p")), Expr.error "replaced with default")]
        (Expr.lit (Value.str "A"))) ∧
    convertCategoricalFunction TypeT.string cfgCatFive "p" =
      CResult.ok (Expr.matchInt TypeT.string (Expr.get (Expr.lit (Value.str "p")))
        [(5, Expr.lit (Value.str "A"))] (Expr.error "replaced with default")) ∧
    convertCategoricalFunction TypeT.string cfgCatX "p" =
      CResult.ok (Expr.matchStr TypeT.string (Expr.get (Expr.lit (Value.str "p")))
        [("x", Expr.lit (Value.str "A"))] (Expr.error "replaced with default")) ∧
    convertCategoricalFunction TypeT.string cfgCatNull "p" =
      CResult.err "stop domain value must be a number, string, or boolean" := by
  refine ⟨?_, ?_, ?_, ?_, ?_⟩
  · have h := (categorical_domain_inference TypeT.string cfgCatTrue "p"
      (JValue.arr [JValue.arr [JValue.bool true, JValue.str "A"]])
      rfl rfl (by decide) rfl rfl).1 true rfl
    exact h.trans rfl
  · have h := (categorical_domain_inference TypeT.string cfgCatFalse "p"
      (JValue.arr [JValue.arr [JValue.bool false, JValue.str "A"]])
      rfl rfl (by decide) rfl rfl).1 false rfl
    exact h.trans rfl
  · have h := (categorical_domain_inference TypeT.string cfgCatFive "p"
      (JValue.arr [JValue.arr [JValue.num 5, JValue.str "A"]])
      rfl rfl (by decide) rfl rfl).2.1 5 rfl rfl
    exact h.trans rfl
  · have h := (categorical_domain_inference TypeT.string cfgCatX "p"
      (JValue.arr [JValue.arr [JValue.str "x", JValue.str "A"]])
      rfl rfl (by decide) rfl rfl).2.2.1 "x" rfl rfl rfl
    exact h.trans rfl
  · exact (categorical_domain_inference TypeT.string cfgCatNull "p"
      (JValue.arr [JValue.arr [JValue.null, JValue.str "A"]])
      rfl rfl (by decide) rfl rfl).2.2.2 rfl rfl rfl

/-- Claim C3: ordered-map insertion is first-wins — inserting a key already
 present leaves the map unchanged, so of two stops with the same key the
 first-seen expression is retained; shown generically for `emplace` and
 concretely for the double-keyed parser, the int64-keyed branch parser, and
 the per-zoom buckets of the composite converter. -/
theorem duplicate_stop_keys_first_wins :
    (∀ (κ α : Type) (lt : κ → κ → Bool) (k : κ) (v₁ v₂ : α) (l : List (κ × α)),
       lt k k = false → emplace lt k v₂ (emplace lt k v₁ l) = emplace lt k v₁ l) ∧
    convertStops TypeT.string cfgDupStops =
      CResult.ok [(1, Expr.lit (Value.str "a"))] ∧
    convertBranches intLt convertInt64 TypeT.string cfgDupStops =
      CResult.ok [(1, Expr.lit (Value.str "a"))] ∧
    convertCompositeFunctionToExpression TypeT.string cfgDupComposite =
      CResult.ok (Expr.step TypeT.string Expr.zoom
        [(0, Expr.matchInt TypeT.string (Expr.get (Expr.lit (Value.str "p")))
          [(1, Expr.lit (Value.str "a"))] (Expr.error "replaced with default"))]) := by
  refine ⟨?_, rfl, rfl, rfl⟩
  intro κ α lt k v₁ v₂ l hk
  induction l with
  | nil => simp [emplace, hk]
  | cons p rest ih =>
    obtain ⟨k₁, u₁⟩ := p
    by_cases h₁ : lt k k₁ = true
    · simp [emplace, h₁, hk]
    · by_cases h₂ : lt k₁ k = true
      · simp [emplace, h₁, h₂, ih]
      · simp [emplace, h₁, h₂]

/-- Witness for claim C3: a second insertion of key 1 is discarded. -/
theorem duplicate_stop_keys_first_wins_witness :
    emplace ratLt 1 (Expr.lit (Value.str "b"))
        (emplace ratLt 1 (Expr.lit (Value.str "a")) []) =
      emplace ratLt 1 (Expr.lit (Value.str "a")) [] :=
  duplicate_stop_keys_first_wins.1 Rat Expr ratLt 1
    (Expr.lit (Value.str "a")) (Expr.lit (Value.str "b")) [] rfl

/-- Claim C4: the type classifier returns Exponential when "type" is absent
 and the target type is interpolatable and Interval otherwise; Interval for
 the string interval; Exponential for the string exponential only when the
 target is interpolatable and Invalid otherwise; Categorical and Identity
 for their strings; and Invalid for any other string or any non-string
 "type" member. -/
theorem functionType_classification (ty : TypeT) (value : JValue) :
    (objectMember value "type" = none →
       functionType ty value =
         (if interpolatable ty then FunctionType.exponential else FunctionType.interval)) ∧
    (∀ typeValue, objectMember value "type" = some typeValue →
       toString typeValue = none → functionType ty value = FunctionType.invalid) ∧
    (∀ typeValue, objectMember value "type" = some typeValue →
       toString typeValue = some "interval" →
       functionType ty value = FunctionType.interval) ∧
    (∀ typeValue, objectMember value "type" = some typeValue →
       toString typeValue = some "exponential" →
       functionType ty value =
         (if interpolatable ty then FunctionType.exponential else FunctionType.invalid)) ∧
    (∀ typeValue, objectMember value "type" = some typeValue →
       toString typeValue = some "categorical" →
       functionType ty value = FunctionType.categorical) ∧
    (∀ typeValue, objectMember value "type" = some typeValue →
       toString typeValue = some "identity" →
       functionType ty value = FunctionType.identity) ∧
    (∀ typeValue s, objectMember value "type" = some typeValue →
       toString typeValue = some s → s ≠ "interval" → s ≠ "exponential" →
       s ≠ "categorical" → s ≠ "identity" →
       functionType ty value = FunctionType.invalid) := by
  refine ⟨?_, ?_, ?_, ?_, ?_, ?_, ?_⟩
  · intro h₁
    simp [functionType, h₁]
  · intro typeValue h₁ h₂
    simp [functionType, h₁, h₂]
  · intro typeValue h₁ h₂
    simp [functionType, h₁, h₂]
  · intro typeValue h₁ h₂
    by_cases hi : interpolatable ty <;> simp [functionType, h₁, h₂, hi]
  · intro typeValue h₁ h₂
    simp [functionType, h₁, h₂]
  · intro typeValue h₁ h₂
    simp [functionType, h₁, h₂]
  · intro typeValue s h₁ h₂ h₃ h₄ h₅ h₆
    simp [functionType, h₁, h₂, h₃, h₄, h₅, h₆]

/-- Witness for claim C4: an exponential "type" member with a
 non-interpolatable string target classifies as Invalid. -/
theorem functionType_classification_witness :
    functionType TypeT.string (JValue.obj [("type", JValue.str "exponential")]) =
      (if interpolatable TypeT.string then FunctionType.exponential
       else FunctionType.invalid) :=
  (functionType_classification TypeT.string
      (JValue.obj [("type", JValue.str "exponential")])).2.2.2.1
    (JValue.str "exponential") rfl rfl

/-- Counterexample for claim C5: calling the literal converter with the
 Array-of-Null target on a non-array value sets the recoverable error sink
 instead of aborting, so the claim as stated (an abort for every call with
 such an Array target) fails. -/
theorem convertLiteral_array_shape_error_counterexample :
    convertLiteral (TypeT.array TypeT.null none) (JValue.bool true) =
      CResult.err "value must be an array" := rfl

/-- Claim C5 (amended): the literal converter aborts, never returning a
 value or setting the error sink, for the Null, Object, Error, generic
 Value, and Collator target types on every input, and for an Array target
 whose item type is neither Number nor String once the input has passed the
 array-shape and length checks. -/
theorem convertLiteral_precondition_violations_abort :
    (∀ value, convertLiteral TypeT.null value = CResult.abort) ∧
    (∀ value, convertLiteral TypeT.object value = CResult.abort) ∧
    (∀ value, convertLiteral TypeT.errorT value = CResult.abort) ∧
    (∀ value, convertLiteral TypeT.valueT value = CResult.abort) ∧
    (∀ value, convertLiteral TypeT.collator value = CResult.abort) ∧
    (∀ itemType N xs, itemType ≠ TypeT.number → itemType ≠ TypeT.string →
       (N = none ∨ N = some xs.length) →
       convertLiteral (TypeT.array itemType N) (JValue.arr xs) = CResult.abort) := by
  refine ⟨fun _ => rfl, fun _ => rfl, fun _ => rfl, fun _ => rfl, fun _ => rfl, ?_⟩
  intro itemType N xs h₁ h₂ h₃
  have harr : convertArrayItems itemType xs = CResult.abort := by
    cases itemType
    · exact absurd rfl h₁
    · rfl
    · exact absurd rfl h₂
    all_goals rfl
  rcases h₃ with rfl | rfl <;>
    simp [convertLiteral, isArray, arrayLength, elements, harr]

/-- Witness for claim C5: the Array-of-Collator target aborts on an array
 input. -/
theorem convertLiteral_precondition_violations_abort_witness :
    convertLiteral (TypeT.array TypeT.collator none) (JValue.arr []) =
      CResult.abort :=
  convertLiteral_precondition_violations_abort.2.2.2.2.2 TypeT.collator none []
    (fun h => TypeT.noConfusion h) (fun h => TypeT.noConfusion h) (Or.inl rfl)

/-- Claim C6: the boolean-domain categorical builder produces a binary case
 expression testing the named property, and a missing true or false entry
 in the branch map is replaced by an explicit default expression; the spec
 example with only a true stop falls back to the default in the else
 branch. -/
theorem categoricalBool_default_branches :
    (∀ ty property branches trueCase,
       List.lookup true branches = some trueCase →
       List.lookup false branches = none →
       categoricalBool ty property branches =
         Expr.caseE ty [(Expr.get (Expr.lit (Value.str property)), trueCase)]
           (Expr.error "replaced with default")) ∧
    (∀ ty property branches falseCase,
       List.lookup true branches = none →
       List.lookup false branches = some falseCase →
       categoricalBool ty property branches =
         Expr.caseE ty
           [(Expr.get (Expr.lit (Value.str property)),
             Expr.error "replaced with default")] falseCase) ∧
    (∀ ty property branches trueCase falseCase,
       List.lookup true branches = some trueCase →
       List.lookup false branches = some falseCase →
       categoricalBool ty property branches =
         Expr.caseE ty [(Expr.get (Expr.lit (Value.str property)), trueCase)]
           falseCase) ∧
    convertCategoricalFunction TypeT.string cfgCatTrue "p" =
      CResult.ok (Expr.caseE TypeT.string
        [(Expr.get (Expr.lit (Value.str "p")), Expr.lit (Value.str "A"))]
        (Expr.error "replaced with default")) := by
  refine ⟨?_, ?_, ?_, rfl⟩
  · intro ty property branches trueCase h₁ h₂
    simp [categoricalBool, h₁, h₂]
  · intro ty property branches falseCase h₁ h₂
    simp [categoricalBool, h₁, h₂]
  · intro ty property branches trueCase falseCase h₁ h₂
    simp [categoricalBool, h₁, h₂]

/-- Witness for claim C6: the branch map holding only a true entry yields
 the default expression as else branch. -/
theorem categoricalBool_default_branches_witness :
    categoricalBool TypeT.string "p" [(true, Expr.lit (Value.str "A"))] =
      Expr.caseE TypeT.string
        [(Expr.get (Expr.lit (Value.str "p")), Expr.lit (Value.str "A"))]
        (Expr.error "replaced with default") :=
  categoricalBool_default_branches.1 TypeT.string "p"
    [(true, Expr.lit (Value.str "A"))] (Expr.lit (Value.str "A")) rfl rfl

/-- Claim C7: the base parameter parser returns 1.0 when "base" is absent,
 the coerced number when present and numeric, and the base error message
 when present but not numeric; an exponential camera function with base 2
 interpolates with base 2, and without a "base" member with base 1. -/
theorem convertBase_defaults_and_errors :
    (∀ value, objectMember value "base" = none → convertBase value = CResult.ok 1) ∧
    (∀ value baseValue base, objectMember value "base" = some baseValue →
       toNumber baseValue = some base → convertBase value = CResult.ok base) ∧
    (∀ value baseValue, objectMember value "base" = some baseValue →
       toNumber baseValue = none →
       convertBase value = CResult.err "function base must be a number") ∧
    convertCameraFunctionToExpression TypeT.number cfgBase2 =
      CResult.ok (Expr.interpolate TypeT.number (Interpolator.exponential 2)
        Expr.zoom [(0, Expr.lit (Value.num 10))]) ∧
    convertCameraFunctionToExpression TypeT.number cfgNoBase =
      CResult.ok (Expr.interpolate TypeT.number (Interpolator.exponential 1)
        Expr.zoom [(0, Expr.lit (Value.num 10))]) := by
  refine ⟨?_, ?_, ?_, rfl, rfl⟩
  · intro value h₁
    simp [convertBase, h₁]
  · intro value baseValue base h₁ h₂
    simp [convertBase, h₁, h₂]
  · intro value baseValue h₁ h₂
    simp [convertBase, h₁, h₂]

/-- Witness for claim C7: a configuration without a "base" member defaults
 to 1. -/
theorem convertBase_defaults_and_errors_witness :
    convertBase (JValue.obj []) = CResult.ok 1 :=
  convertBase_defaults_and_errors.1 (JValue.obj []) rfl

/-- Claim C8: the stop collection parser fails with the distinct messages
 for a missing "stops" member, a non-array "stops" member, and an empty
 stops array; at every position of the per-stop loop, a stop that is not an
 array or not of exactly two elements fails with its respective message for
 every remainder of the list and every accumulated map — so the parse halts
 at the first failing stop, returning the error alone — while a parsable
 stop makes the loop continue on the remainder with the stop inserted; the
 two concrete configurations fail at the second stop after a well-formed
 first one. -/
theorem convertStops_error_cases :
    (∀ ty value, objectMember value "stops" = none →
       convertStops ty value = CResult.err "function value must specify stops") ∧
    (∀ ty value stopsValue, objectMember value "stops" = some stopsValue →
       isArray stopsValue = false →
       convertStops ty value = CResult.err "function stops must be an array") ∧
    (∀ ty value stopsValue, objectMember value "stops" = some stopsValue →
       isArray stopsValue = true → arrayLength stopsValue = 0 →
       convertStops ty value = CResult.err "function must have at least one stop") ∧
    (∀ ty stopValue rest stops, isArray stopValue = false →
       convertStopsLoop ty (stopValue :: rest) stops =
         CResult.err "function stop must be an array") ∧
    (∀ ty stopValue rest stops, isArray stopValue = true →
       arrayLength stopValue ≠ 2 →
       convertStopsLoop ty (stopValue :: rest) stops =
         CResult.err "function stop must have two elements") ∧
    (∀ ty stopValue rest stops t e, isArray stopValue = true →
       arrayLength stopValue = 2 →
       convertFloat (arrayMember stopValue 0) = CResult.ok t →
       convertLiteral ty (arrayMember stopValue 1) = CResult.ok e →
       convertStopsLoop ty (stopValue :: rest) stops =
         convertStopsLoop ty rest (emplace ratLt t e stops)) ∧
    convertStops TypeT.number cfgStopNotArray =
      CResult.err "function stop must be an array" ∧
    convertStops TypeT.number cfgStopArity =
      CResult.err "function stop must have two elements" := by
  refine ⟨?_, ?_, ?_, ?_, ?_, ?_, rfl, rfl⟩
  · intro ty value h₁
    simp [convertStops, h₁]
  · intro ty value stopsValue h₁ h₂
    simp [convertStops, h₁, h₂]
  · intro ty value stopsValue h₁ h₂ h₃
    simp [convertStops, h₁, h₂, h₃]
  · intro ty stopValue rest stops h₁
    simp [convertStopsLoop, h₁]
  · intro ty stopValue rest stops h₁ h₂
    simp [convertStopsLoop, h₁, h₂]
  · intro ty stopValue rest stops t e h₁ h₂ h₃ h₄
    simp [convertStopsLoop, h₁, h₂, h₃, h₄]

/-- Witness for claim C8: a configuration without a "stops" member fails
 with the specify-stops message. -/
theorem convertStops_error_cases_witness :
    convertStops TypeT.number (JValue.obj []) =
      CResult.err "function value must specify stops" :=
  convertStops_error_cases.1 TypeT.number (JValue.obj []) rfl

/-- Claim C9: the camera function converter fails with the
 unsupported-function-type message whenever the classified shape is
 Categorical, Identity, or Invalid, and with the must-be-an-object message
 whenever the input is not an object. -/
theorem camera_function_guards (ty : TypeT) (value : JValue) :
    (isObject value = false →
       convertCameraFunctionToExpression ty value =
         CResult.err "function must be an object") ∧
    (isObject value = true →
       (functionType ty value = FunctionType.categorical ∨
        functionType ty value = FunctionType.identity ∨
        functionType ty value = FunctionType.invalid) →
       convertCameraFunctionToExpression ty value =
         CResult.err "unsupported function type") := by
  constructor
  · intro h₁
    simp [convertCameraFunctionToExpression, h₁]
  · intro h₁ h₂
    unfold convertCameraFunctionToExpression
    rcases h₂ with h | h | h <;> rw [h] <;> simp [h₁]

/-- Witness for claim C9: a camera function declared categorical is
 rejected. -/
theorem camera_function_guards_witness :
    convertCameraFunctionToExpression TypeT.number
        (JValue.obj [("type", JValue.str "categorical")]) =
      CResult.err "unsupported function type" :=
  (camera_function_guards TypeT.number
      (JValue.obj [("type", JValue.str "categorical")])).2 rfl (Or.inl rfl)

/-- Claim C10: the composite path parses "base" before iterating the stops,
 so a non-numeric "base" member fails with the base error message for every
 instantiation of the composite converter, including the Interval and
 Categorical shapes whose inner builders ignore the base. -/
theorem composite_base_error_regardless_of_shape :
    (∀ (κ : Type) (lt : κ → κ → Bool) (convKey : JValue → CResult κ)
       (ty : TypeT) (value : JValue)
       (mk : TypeT → Rat → String → List (κ × Expr) → Expr)
       (propertyValue baseValue : JValue),
       objectMember value "property" = some propertyValue →
       objectMember value "base" = some baseValue →
       toNumber baseValue = none →
       composite lt convKey ty value mk =
         CResult.err "function base must be a number") ∧
    convertCompositeFunctionToExpression TypeT.number cfgBadBaseInterval =
      CResult.err "function base must be a number" ∧
    convertCompositeFunctionToExpression TypeT.string cfgBadBaseCategorical =
      CResult.err "function base must be a number" := by
  refine ⟨?_, rfl, rfl⟩
  intro κ lt convKey ty value mk propertyValue baseValue h₁ h₂ h₃
  have hb : convertBase value = CResult.err "function base must be a number" := by
    simp [convertBase, h₂, h₃]
  simp [composite, h₁, hb]

/-- Witness for claim C10: the interval composite configuration with a
 string "base" fails in the generic composite converter. -/
theorem composite_base_error_regardless_of_shape_witness :
    composite ratLt convertDouble TypeT.number cfgBadBaseInterval
      (fun ty₁ _ property stops =>
        step ty₁ (Expr.number (Expr.get (Expr.lit (Value.str property)))) stops) =
      CResult.err "function base must be a number" :=
  composite_base_error_regardless_of_shape.1 Rat ratLt convertDouble
    TypeT.number cfgBadBaseInterval
    (fun ty₁ _ property stops =>
      step ty₁ (Expr.number (Expr.get (Expr.lit (Value.str property)))) stops)
    (JValue.str "p") (JValue.str "x") rfl rfl rfl

end FunctionConversion
